import Mathlib

/-!
Verification of the Financial Document Analyzer upload/analysis pipeline.

The Python source (main.py, tools.py) is shallowly embedded below:
pure string manipulation (lower, strip, endswith, replace, substring test)
is given by executable Lean functions over character lists; the filesystem
is an explicit map from paths to byte contents, threaded through the
handler; Python exceptions are an explicit sum type, with try/except
blocks translated to case analysis on `Except` values.  External,
non-deterministic collaborators (the PDF parser, the crew kickoff call,
interference from other processes between steps, and failure of the
cleanup deletion) are parameters of the embedded functions.
-/

/-! ## Python string primitives -/

/-- Characters that Python's `str.strip()` removes (ASCII whitespace). -/
def pyIsSpace (c : Char) : Bool :=
  c = ' ' || c = '\t' || c = '\n' || c = '\x0d' || c = '\x0b' || c = '\x0c'

/-- Trim `pyIsSpace` characters from both ends of a character list. -/
def trimChars (l : List Char) : List Char :=
  ((l.dropWhile pyIsSpace).reverse.dropWhile pyIsSpace).reverse

/-- Embedding of Python `s.strip()`. -/
def pyStrip (s : String) : String :=
  String.mk (trimChars s.toList)

/-- Embedding of Python `s.lower()` (ASCII case folding). -/
def pyLower (s : String) : String :=
  String.mk (s.toList.map Char.toLower)

/-- `listHasPfx p l` is true when `p` is an initial segment of `l`. -/
def listHasPfx : List Char → List Char → Bool
  | [], _ => true
  | _ :: _, [] => false
  | a :: as, b :: bs => a = b && listHasPfx as bs

/-- Embedding of Python `s.endswith(suf)`. -/
def strEndsWith (suf s : String) : Bool :=
  listHasPfx suf.toList.reverse s.toList.reverse

/-- Embedding of Python `s.startswith(pre)` (used only in statements). -/
def strStartsWith (pre s : String) : Bool :=
  listHasPfx pre.toList s.toList

/-- `containsSub p l` is true when `p` occurs as a contiguous sublist of `l`. -/
def containsSub (p : List Char) : List Char → Bool
  | [] => listHasPfx p []
  | c :: cs => listHasPfx p (c :: cs) || containsSub p cs

/-- Embedding of Python `p in s` substring test. -/
def strContains (p s : String) : Bool :=
  containsSub p.toList s.toList

/-- Embedding of Python `s.replace(chr(10)*3, chr(10)*2)`: scan left to
right, rewrite each non-overlapping run of three newlines to two,
continuing after the replacement. -/
def replace3 : List Char → List Char
  | '\n' :: '\n' :: '\n' :: rest => '\n' :: '\n' :: replace3 rest
  | c :: rest => c :: replace3 rest
  | [] => []

/-- `full_text.replace` step of the extractor, on strings. -/
def pyReplace3 (s : String) : String :=
  String.mk (replace3 s.toList)

/-! ## Filesystem model -/

/-- Byte string: file contents. -/
abbrev Bytes := List Nat

/-- Filesystem state: which paths exist and with what contents. -/
abbrev Fs := String → Option Bytes

/-- Write (create or truncate-and-write) `b` at path `p`. -/
def fsSet (fs : Fs) (p : String) (b : Bytes) : Fs :=
  fun q => if q = p then some b else fs q

/-- Embedding of `os.remove p`. -/
def fsDel (fs : Fs) (p : String) : Fs :=
  fun q => if q = p then none else fs q

/-- Embedding of `os.path.exists p`. -/
def fsExists (fs : Fs) (p : String) : Bool :=
  (fs p).isSome

/-! ## tools.py : FinancialDocumentTool.read_data_tool -/

/-- Outcome of `page.extract_text()` for one page: a text, or an
exception caught by the per-page `except` clause. -/
inductive PageOutcome
  | ok (text : String)
  | raises

/-- Outcome of handing the file's bytes to `PyPDF2.PdfReader`: either the
reader raises (caught by the outer `except`), or it yields a page list. -/
inductive PdfOutcome
  | openFailure (msg : String)
  | pages (ps : List PageOutcome)

/-- One iteration of the page loop: the chunk appended to `full_text` for
page number `n` (0-based, printed 1-based as in the source). -/
def pageChunk (n : Nat) : PageOutcome → String
  | .ok text =>
      if pyStrip text = "" then ""
      else "\n--- Page " ++ toString (n + 1) ++ " ---\n" ++ text ++ "\n"
  | .raises => "\n--- Page " ++ toString (n + 1) ++ " (Error reading) ---\n"

/-- The `for page_num, page in enumerate(...)` accumulation. -/
def buildText (n : Nat) : List PageOutcome → String
  | [] => ""
  | p :: ps => pageChunk n p ++ buildText (n + 1) ps

/-- Embedding of `FinancialDocumentTool.read_data_tool`.  The whole body is
wrapped in `try/except Exception`, so every failure mode is an input
(`parsePdf`, page outcomes) mapped to a returned error string; the Lean
function is total, matching the source's never-raises behaviour. -/
def read_data_tool (fs : Fs) (parsePdf : Bytes → PdfOutcome) (path : String) : String :=
  match fs path with
  | none => "Error: File not found at path: " ++ path
  | some bytes =>
    match parsePdf bytes with
    | .openFailure m => "Error reading PDF file: " ++ m
    | .pages ps =>
      if pyStrip (buildText 0 ps) = "" then
        "Error: No readable text found in the PDF document"
      else
        pyStrip (pyReplace3 (buildText 0 ps))

/-! ## tools.py : InvestmentTool and RiskTool -/

/-- Embedding of Python `chr(10).join(...)`. -/
def joinNl : List String → String
  | [] => ""
  | [s] => s
  | s :: rest => s ++ "\n" ++ joinNl rest

/-- The `analysis` dict of `analyze_investment_tool`, in insertion order. -/
def investmentItems : List (String × String) :=
  [("revenue_analysis", "Revenue trends and growth patterns"),
   ("profitability_metrics", "Profit margins and efficiency ratios"),
   ("liquidity_assessment", "Cash flow and working capital analysis"),
   ("debt_evaluation", "Debt levels and financial leverage"),
   ("market_position", "Competitive positioning and market share")]

/-- Embedding of `InvestmentTool.analyze_investment_tool`.  Python
truthiness of a string is non-emptiness; `"Error" in data` is the
substring test. -/
def analyze_investment_tool (d : String) : String :=
  if d = "" ∨ strContains "Error" d = true then
    "Cannot analyze investment data due to document reading error"
  else
    "Investment Analysis Framework Applied:\n" ++
      joinNl (investmentItems.map (fun kv => "- " ++ kv.1 ++ ": " ++ kv.2))

/-- The `risk_factors` list of `create_risk_assessment_tool`. -/
def riskFactors : List String :=
  ["Market volatility and economic conditions",
   "Industry-specific risks and competition",
   "Financial leverage and debt service capability",
   "Regulatory and compliance risks",
   "Operational and management risks"]

/-- Embedding of `RiskTool.create_risk_assessment_tool`. -/
def create_risk_assessment_tool (d : String) : String :=
  if d = "" ∨ strContains "Error" d = true then
    "Cannot perform risk assessment due to document reading error"
  else
    "Risk Assessment Framework:\n" ++
      joinNl (riskFactors.map (fun f => "- " ++ f))

/-! ## main.py : exceptions and run_crew -/

/-- Python exceptions the handler can see: `FileNotFoundError`,
`fastapi.HTTPException` (a subclass of `Exception`), and a plain
`Exception`. -/
inductive PyExc
  | fileNotFound (msg : String)
  | httpExc (status : Nat) (detail : String)
  | exc (msg : String)
deriving DecidableEq, Repr

/-- Python `str(e)` on the exceptions above; starlette's `HTTPException`
prints as `"status_code: detail"`, single-argument exceptions print their
message. -/
def PyExc.str : PyExc → String
  | .fileNotFound m => m
  | .httpExc s d => toString s ++ ": " ++ d
  | .exc m => m

/-- The default analysis query of the source. -/
def defaultQuery : String := "Analyze this financial document for investment insights"

/-- Embedding of `run_crew`.  `kick` is the opaque
`financial_crew.kickoff` call, a function of the query and file path it
receives, returning a report or raising (as `Except.error`).  The body's
`try/except Exception` catches every exception — including the
`FileNotFoundError` raised for a missing path — and re-raises a plain
`Exception` prefixed with `"Analysis failed: "`. -/
def run_crew (fs : Fs) (kick : String → String → Except String String)
    (query : String) (file_path : String) : Except PyExc String :=
  let body : Except PyExc String :=
    let query := if query = "" ∨ pyStrip query = "" then defaultQuery else query
    if fsExists fs file_path = false then
      Except.error (PyExc.fileNotFound ("Financial document not found at: " ++ file_path))
    else
      match kick query file_path with
      | Except.ok r => Except.ok r
      | Except.error m => Except.error (PyExc.exc m)
  match body with
  | Except.ok r => Except.ok r
  | Except.error e => Except.error (PyExc.exc ("Analysis failed: " ++ e.str))

/-! ## main.py : the /analyze handler -/

/-- The success response body assembled by the handler. -/
structure SuccessBody where
  query : String
  analysis : String
  file_processed : String
  file_size : Nat
  processing_id : String
deriving DecidableEq, Repr

/-- The externally observable response: a success body, or the error body
produced by the `HTTPException` handler (`status_code`, `message`). -/
inductive Response
  | success (body : SuccessBody)
  | error (status : Nat) (message : String)
deriving DecidableEq, Repr

/-- The storage path constructed from the generated identifier. -/
def filePathFor (fileId : String) : String :=
  "data/financial_document_" ++ fileId ++ ".pdf"

/-- The `try` block of the handler, from the `open(file_path, "wb")` on:
opening with mode "wb" creates the file empty; an empty upload raises
`HTTPException(400)` after that creation; otherwise the bytes are
written, the query normalized and stripped, and `run_crew` invoked.
`mid` is interference by the outside world (e.g. another process deleting
the file) between the save and the `run_crew` call; `id` means none. -/
def saveAndProcess (fs0 : Fs) (filename : String) (content : Bytes) (query : String)
    (file_path fileId : String) (mid : Fs → Fs)
    (kick : String → String → Except String String) : Except PyExc SuccessBody × Fs :=
  let fsOpened := fsSet fs0 file_path []
  if content.length = 0 then
    (Except.error (PyExc.httpExc 400 "Uploaded file is empty"), fsOpened)
  else
    let fsWritten := fsSet fsOpened file_path content
    let q0 := if query = "" ∨ pyStrip query = "" then defaultQuery else query
    let q := pyStrip q0
    let fsMid := mid fsWritten
    match run_crew fsMid kick q file_path with
    | Except.ok r =>
        (Except.ok ⟨q, r, filename, content.length, fileId⟩, fsMid)
    | Except.error e => (Except.error e, fsMid)

/-- The handler's `except` clauses: `FileNotFoundError` maps to a 404
`HTTPException`, every other exception — including an `HTTPException`
raised inside the `try` — to a 500 one with `str(e)` embedded; a success
value passes through.  The resulting `HTTPException` is rendered by the
app's exception handler as the error body. -/
def exceptClauses : Except PyExc SuccessBody → Response
  | Except.ok b => Response.success b
  | Except.error (PyExc.fileNotFound m) =>
      Response.error 404 ("File processing error: " ++ m)
  | Except.error e =>
      Response.error 500 ("Error processing financial document: " ++ e.str)

/-- The handler's `finally` block: delete the file at `p` if it exists;
`removeFails = true` means `os.remove` raised, which is only logged
(warning) and leaves the filesystem as it was. -/
def finallyCleanup (removeFails : Bool) (fs : Fs) (p : String) : Fs :=
  if fsExists fs p then (if removeFails then fs else fsDel fs p) else fs

/-- Embedding of the `/analyze` handler `analyze_document`.  `query` is
the client's form field (`none` when absent, in which case FastAPI
substitutes the declared default string).  The filename check precedes
the `try`, so its `HTTPException(400)` reaches FastAPI directly and no
file is written. -/
def analyze_document (fs0 : Fs) (filename : String) (content : Bytes)
    (query : Option String) (fileId : String) (mid : Fs → Fs)
    (kick : String → String → Except String String) (removeFails : Bool) : Response × Fs :=
  if strEndsWith ".pdf" (pyLower filename) = false then
    (Response.error 400 "Only PDF files are supported for financial document analysis", fs0)
  else
    let step := saveAndProcess fs0 filename content (query.getD defaultQuery)
      (filePathFor fileId) fileId mid kick
    (exceptClauses step.1, finallyCleanup removeFails step.2 (filePathFor fileId))

/-! ## main.py : the /health handler -/

/-- The body returned by `GET /health`. -/
structure HealthResponse where
  status : String
  data_directory : Bool
  openai_api_key : Bool
  serper_api_key : Bool
deriving DecidableEq, Repr

/-- Python `bool(os.getenv(name))`: `None` and the empty string are
falsy, any other string truthy. -/
def pyBoolOfGetenv : Option String → Bool
  | none => false
  | some s => !(s = "")

/-- Embedding of `health_check`.  `env` is the process environment; the
handler only reads `env` and the filesystem and builds a constant-shaped
body, performing no writes and no external calls (it is a pure function
of its two inputs). -/
def health_check (env : String → Option String) (fs : Fs) : HealthResponse :=
  ⟨"healthy", fsExists fs "data",
   pyBoolOfGetenv (env "OPENAI_API_KEY"),
   pyBoolOfGetenv (env "SERPER_API_KEY")⟩

/-! ## Helper lemmas: strings and lists -/

theorem mk_eq_empty_iff (l : List Char) : String.mk l = "" ↔ l = [] := by
  constructor
  · intro h; exact congrArg String.data h
  · intro h; subst h; rfl

theorem dropWhile_forall (p : Char → Bool) (l : List Char) :
    (∀ x ∈ l.dropWhile p, p x = true) ↔ (∀ x ∈ l, p x = true) := by
  induction l with
  | nil => simp
  | cons c cs ih =>
    by_cases hc : p c = true
    · rw [List.dropWhile_cons, if_pos hc]
      simp only [List.mem_cons, forall_eq_or_imp]
      exact ⟨fun h => ⟨hc, ih.mp h⟩, fun h => ih.mpr h.2⟩
    · rw [List.dropWhile_cons, if_neg hc]

theorem trimChars_eq_nil_iff (l : List Char) :
    trimChars l = [] ↔ ∀ c ∈ l, pyIsSpace c = true := by
  unfold trimChars
  rw [List.reverse_eq_nil_iff, List.dropWhile_eq_nil_iff]
  constructor
  · intro h
    exact (dropWhile_forall _ _).mp fun x hx => h x (List.mem_reverse.mpr hx)
  · intro h x hx
    exact (dropWhile_forall _ _).mpr h x (List.mem_reverse.mp hx)

theorem pyStrip_eq_empty_iff (s : String) :
    pyStrip s = "" ↔ ∀ c ∈ s.toList, pyIsSpace c = true := by
  unfold pyStrip
  rw [mk_eq_empty_iff]
  exact trimChars_eq_nil_iff _

theorem pyStrip_ne_empty_iff_any (s : String) :
    pyStrip s ≠ "" ↔ s.toList.any (fun c => !pyIsSpace c) = true := by
  rw [ne_eq, pyStrip_eq_empty_iff, List.any_eq_true]
  constructor
  · intro h
    push_neg at h
    obtain ⟨c, hc, hcs⟩ := h
    refine ⟨c, hc, ?_⟩
    cases hps : pyIsSpace c
    · rfl
    · exact absurd hps hcs
  · rintro ⟨c, hc, hq⟩ hall
    rw [hall c hc] at hq
    cases hq

theorem any_rev (q : Char → Bool) (l : List Char) :
    l.reverse.any q = l.any q := by
  induction l with
  | nil => rfl
  | cons c cs ih => simp [List.any_append, ih, Bool.or_comm]

theorem any_dropWhile (q p : Char → Bool) (hqp : ∀ c, q c = true → p c = false)
    (l : List Char) : (l.dropWhile p).any q = l.any q := by
  induction l with
  | nil => rfl
  | cons a as ih =>
    rw [List.dropWhile_cons]
    by_cases hp : p a = true
    · have hqa : q a = false := by
        cases hqa : q a
        · rfl
        · rw [hqp a hqa] at hp; cases hp
      rw [if_pos hp, ih, List.any_cons, hqa, Bool.false_or]
    · rw [if_neg hp]

theorem any_trimChars (q : Char → Bool) (hqp : ∀ c, q c = true → pyIsSpace c = false)
    (l : List Char) : (trimChars l).any q = l.any q := by
  unfold trimChars
  rw [any_rev, any_dropWhile q pyIsSpace hqp, any_rev, any_dropWhile q pyIsSpace hqp]

theorem pyStrip_pyStrip_ne_empty (s : String) (h : pyStrip s ≠ "") :
    pyStrip (pyStrip s) ≠ "" := by
  rw [pyStrip_ne_empty_iff_any] at h ⊢
  have hts : (pyStrip s).toList = trimChars s.toList := rfl
  rw [hts, any_trimChars _ (fun c hc => by simpa using hc) _]
  exact h

theorem any_replace3 (q : Char → Bool) (hq : q '\n' = false) (l : List Char)
    (h : l.any q = true) : (replace3 l).any q = true := by
  induction l using replace3.induct with
  | case1 rest ih =>
    simp only [replace3, List.any_cons, hq, Bool.false_or] at h ⊢
    exact ih h
  | case2 c rest hne ih =>
    simp only [replace3, List.any_cons] at h ⊢
    rcases Bool.or_eq_true_iff.mp h with h1 | h2
    · exact Bool.or_eq_true_iff.mpr (Or.inl h1)
    · exact Bool.or_eq_true_iff.mpr (Or.inr (ih h2))
  | case3 => simp at h

theorem pyStrip_replace3_ne_empty (s : String) (h : pyStrip s ≠ "") :
    pyStrip (pyReplace3 s) ≠ "" := by
  rw [pyStrip_ne_empty_iff_any] at h ⊢
  have hts : (pyReplace3 s).toList = replace3 s.toList := rfl
  rw [hts]
  exact any_replace3 _ (by decide) _ h

theorem listHasPfx_append (p l l2 : List Char) (h : listHasPfx p l = true) :
    listHasPfx p (l ++ l2) = true := by
  induction p generalizing l with
  | nil => rfl
  | cons a as ih =>
    cases l with
    | nil => simp [listHasPfx] at h
    | cons b bs =>
      simp only [listHasPfx, List.cons_append, Bool.and_eq_true, decide_eq_true_eq] at h ⊢
      exact ⟨h.1, ih bs h.2⟩

theorem strStartsWith_append (pre s t : String) (h : strStartsWith pre s = true) :
    strStartsWith pre (s ++ t) = true := by
  unfold strStartsWith at h ⊢
  rw [show (s ++ t).toList = s.toList ++ t.toList from String.data_append s t]
  exact listHasPfx_append _ _ _ h

/-! ## Helper lemmas: filesystem and handler steps -/

theorem fsExists_set (fs : Fs) (p : String) (b : Bytes) :
    fsExists (fsSet fs p b) p = true := by
  simp [fsExists, fsSet]

theorem finally_removes (fs : Fs) (p : String) :
    (if fsExists fs p then fsDel fs p else fs) p = none := by
  cases h : fs p with
  | none => simp [fsExists, h]
  | some b => simp [fsExists, fsDel, h]

theorem filePathFor_injective (id1 id2 : String)
    (h : filePathFor id1 = filePathFor id2) : id1 = id2 := by
  unfold filePathFor at h
  have h2 : ("data/financial_document_".toList ++ id1.toList) ++ ".pdf".toList
      = ("data/financial_document_".toList ++ id2.toList) ++ ".pdf".toList := by
    have hd := congrArg String.data h
    simpa [String.data_append] using hd
  have h3 := List.append_cancel_left (List.append_cancel_right h2)
  exact congrArg String.mk h3

/-! ## Claim theorems -/

/-- C6: the storage path `data/financial_document_<id>.pdf` is an
injective function of the generated identifier, so two requests with
distinct identifiers can never construct the same path, regardless of
interleaving. -/
theorem C6_paths_never_collide (id1 id2 : String) (h : id1 ≠ id2) :
    filePathFor id1 ≠ filePathFor id2 :=
  fun he => h (filePathFor_injective id1 id2 he)

theorem C6_paths_never_collide_witness :
    filePathFor "7c9e6679-7425-40de-944b-e07fc1f90ae7" ≠
      filePathFor "550e8400-e29b-41d4-a716-446655440000" :=
  C6_paths_never_collide _ _ (by decide)

/-- C3: a request whose declared filename does not end in ".pdf"
case-insensitively is rejected with the 400 invalid-file-type error
before the `try` block, and the filesystem is returned exactly as it was:
no path is written for that request. -/
theorem C3_invalid_extension_rejected_without_write (fs0 : Fs) (filename : String)
    (content : Bytes) (query : Option String) (fileId : String) (mid : Fs → Fs)
    (kick : String → String → Except String String) (removeFails : Bool)
    (h : strEndsWith ".pdf" (pyLower filename) = false) :
    analyze_document fs0 filename content query fileId mid kick removeFails
      = (Response.error 400 "Only PDF files are supported for financial document analysis",
         fs0) := by
  simp [analyze_document, h]

theorem C3_invalid_extension_rejected_without_write_witness :
    analyze_document (fun _ => none) "report.txt" [1, 2] (some "x") "id1" id
        (fun _ _ => Except.ok "R") false
      = (Response.error 400 "Only PDF files are supported for financial document analysis",
         fun _ => none) :=
  C3_invalid_extension_rejected_without_write _ _ _ _ _ _ _ _ (by decide)

/-- C7: the text extractor is total — every failure mode (missing file,
unreadable PDF, no readable text) is returned as a string, never raised —
and its result either begins with "Error" or is a non-empty extracted
text blob. -/
theorem C7_extractor_total_error_or_nonempty (fs : Fs) (parsePdf : Bytes → PdfOutcome)
    (path : String) :
    strStartsWith "Error" (read_data_tool fs parsePdf path) = true
    ∨ read_data_tool fs parsePdf path ≠ "" := by
  unfold read_data_tool
  split
  · exact Or.inl (strStartsWith_append "Error" "Error: File not found at path: " path
      (by decide))
  · split
    · exact Or.inl (strStartsWith_append "Error" "Error reading PDF file: " _ (by decide))
    · split
      · exact Or.inl (by decide)
      · next ht => exact Or.inr (pyStrip_replace3_ne_empty _ ht)

/-- C8: beyond the emptiness/"Error"-substring check, the investment and
risk helpers are constant: any two acceptable inputs produce the same
fixed template, and any empty or "Error"-containing input produces the
fixed cannot-analyze message. -/
theorem C8_tools_constant (x y z : String)
    (hx : x ≠ "") (hx2 : strContains "Error" x = false)
    (hy : y ≠ "") (hy2 : strContains "Error" y = false)
    (hz : z = "" ∨ strContains "Error" z = true) :
    analyze_investment_tool x = analyze_investment_tool y
    ∧ create_risk_assessment_tool x = create_risk_assessment_tool y
    ∧ analyze_investment_tool z = "Cannot analyze investment data due to document reading error"
    ∧ create_risk_assessment_tool z
        = "Cannot perform risk assessment due to document reading error" := by
  refine ⟨?_, ?_, ?_, ?_⟩
  · rw [analyze_investment_tool, analyze_investment_tool,
        if_neg (by simp [hx, hx2]), if_neg (by simp [hy, hy2])]
  · rw [create_risk_assessment_tool, create_risk_assessment_tool,
        if_neg (by simp [hx, hx2]), if_neg (by simp [hy, hy2])]
  · rw [analyze_investment_tool, if_pos hz]
  · rw [create_risk_assessment_tool, if_pos hz]

theorem C8_tools_constant_witness :
    analyze_investment_tool "revenue 12" = analyze_investment_tool "totally different text"
    ∧ create_risk_assessment_tool "revenue 12"
        = create_risk_assessment_tool "totally different text"
    ∧ analyze_investment_tool "" = "Cannot analyze investment data due to document reading error"
    ∧ create_risk_assessment_tool ""
        = "Cannot perform risk assessment due to document reading error" :=
  C8_tools_constant "revenue 12" "totally different text" ""
    (by decide) (by decide) (by decide) (by decide) (Or.inl rfl)

/-- C9: GET /health is a pure function of the environment and the
filesystem: each required_env_vars entry is true exactly when the
variable is set to a non-empty string, and data_directory reports the
existence of the data directory. -/
theorem C9_health_reports_env (env : String → Option String) (fs : Fs) :
    ((health_check env fs).openai_api_key = true
      ↔ ∃ s, env "OPENAI_API_KEY" = some s ∧ s ≠ "")
    ∧ ((health_check env fs).serper_api_key = true
      ↔ ∃ s, env "SERPER_API_KEY" = some s ∧ s ≠ "")
    ∧ (health_check env fs).data_directory = fsExists fs "data"
    ∧ (health_check env fs).status = "healthy" := by
  refine ⟨?_, ?_, rfl, rfl⟩
  · cases h : env "OPENAI_API_KEY" with
    | none => simp [health_check, pyBoolOfGetenv, h]
    | some s => simp [health_check, pyBoolOfGetenv, h]
  · cases h : env "SERPER_API_KEY" with
    | none => simp [health_check, pyBoolOfGetenv, h]
    | some s => simp [health_check, pyBoolOfGetenv, h]

/-! ## Handler path lemmas -/

theorem finallyCleanup_removes (fs : Fs) (p : String) :
    finallyCleanup false fs p p = none := by
  unfold finallyCleanup
  cases h : fs p with
  | none => simp [fsExists, h]
  | some b => simp [fsExists, fsDel, h]

theorem analyze_document_valid (fs0 : Fs) (filename : String) (content : Bytes)
    (query : Option String) (fileId : String) (mid : Fs → Fs)
    (kick : String → String → Except String String) (removeFails : Bool)
    (hpdf : strEndsWith ".pdf" (pyLower filename) = true) :
    analyze_document fs0 filename content query fileId mid kick removeFails
      = (exceptClauses (saveAndProcess fs0 filename content (query.getD defaultQuery)
            (filePathFor fileId) fileId mid kick).1,
         finallyCleanup removeFails
           (saveAndProcess fs0 filename content (query.getD defaultQuery)
             (filePathFor fileId) fileId mid kick).2
           (filePathFor fileId)) := by
  rw [analyze_document, if_neg (by simp [hpdf])]

theorem run_crew_ok (fs : Fs) (kick : String → String → Except String String)
    (q fp r : String)
    (hex : fsExists fs fp = true)
    (hq : ¬(q = "" ∨ pyStrip q = ""))
    (hk : kick q fp = Except.ok r) :
    run_crew fs kick q fp = Except.ok r := by
  simp [run_crew, hq, hex, hk]

theorem analyze_ok (fs0 : Fs) (filename : String) (content : Bytes)
    (query : Option String) (fileId : String)
    (kick : String → String → Except String String) (removeFails : Bool) (q r : String)
    (hpdf : strEndsWith ".pdf" (pyLower filename) = true)
    (hc : ¬content.length = 0)
    (hq1 : pyStrip (if query.getD defaultQuery = "" ∨ pyStrip (query.getD defaultQuery) = ""
             then defaultQuery else query.getD defaultQuery) = q)
    (hqne : ¬(q = "" ∨ pyStrip q = ""))
    (hk : kick q (filePathFor fileId) = Except.ok r) :
    (analyze_document fs0 filename content query fileId id kick removeFails).1
      = Response.success ⟨q, r, filename, content.length, fileId⟩ := by
  rw [analyze_document_valid _ _ _ _ _ _ _ _ hpdf]
  have hrun := run_crew_ok
    (fsSet (fsSet fs0 (filePathFor fileId) []) (filePathFor fileId) content)
    kick q (filePathFor fileId) r (fsExists_set _ _ _) hqne hk
  simp [saveAndProcess, hc, hq1, hrun, exceptClauses]

/-- C1: whenever validation passed (so the upload was written to the
storage path), the `finally` block attempts the deletion after the
response is determined: if the deletion succeeds the path no longer
exists, and if it fails (`removeFails = true`) the response is exactly
the one a succeeding deletion would have produced — cleanup failure
never masks the primary result. -/
theorem C1_cleanup_invariant (fs0 : Fs) (filename : String) (content : Bytes)
    (query : Option String) (fileId : String) (mid : Fs → Fs)
    (kick : String → String → Except String String) (removeFails : Bool)
    (hpdf : strEndsWith ".pdf" (pyLower filename) = true) :
    (analyze_document fs0 filename content query fileId mid kick false).2
        (filePathFor fileId) = none
    ∧ (analyze_document fs0 filename content query fileId mid kick removeFails).1
      = (analyze_document fs0 filename content query fileId mid kick false).1 := by
  rw [analyze_document_valid _ _ _ _ _ _ _ _ hpdf,
      analyze_document_valid _ _ _ _ _ _ _ _ hpdf]
  exact ⟨finallyCleanup_removes _ _, rfl⟩

theorem C1_cleanup_invariant_witness :
    (analyze_document (fun _ => none) "a.pdf" [1] (some "q") "w1" id
        (fun _ _ => Except.ok "R") false).2 (filePathFor "w1") = none
    ∧ (analyze_document (fun _ => none) "a.pdf" [1] (some "q") "w1" id
        (fun _ _ => Except.ok "R") true).1
      = (analyze_document (fun _ => none) "a.pdf" [1] (some "q") "w1" id
        (fun _ _ => Except.ok "R") false).1 :=
  C1_cleanup_invariant (fun _ => none) "a.pdf" [1] (some "q") "w1" id
    (fun _ _ => Except.ok "R") true (by decide)

/-- C5: for a valid non-empty upload whose query is absent, empty, or
whitespace-only, the query handed to the crew kickoff and echoed in the
success body is exactly the fixed default string. -/
theorem C5_default_query (fs0 : Fs) (filename : String) (content : Bytes)
    (query : Option String) (fileId : String)
    (kick : String → String → Except String String) (removeFails : Bool) (r : String)
    (hpdf : strEndsWith ".pdf" (pyLower filename) = true)
    (hc : ¬content.length = 0)
    (hq : query = none ∨ ∃ w, query = some w ∧ pyStrip w = "")
    (hk : kick defaultQuery (filePathFor fileId) = Except.ok r) :
    (analyze_document fs0 filename content query fileId id kick removeFails).1
      = Response.success ⟨defaultQuery, r, filename, content.length, fileId⟩ := by
  apply analyze_ok fs0 filename content query fileId kick removeFails defaultQuery r hpdf hc
    ?_ (by decide) hk
  rcases hq with h | ⟨w, hw, hws⟩
  · subst h
    rw [Option.getD_none, if_neg (by decide)]
    decide
  · subst hw
    rw [Option.getD_some, if_pos (Or.inr hws)]
    decide

theorem C5_default_query_witness :
    (analyze_document (fun _ => none) "a.pdf" [7] (some "  ") "w2" id
        (fun _ _ => Except.ok "R") false).1
      = Response.success ⟨defaultQuery, "R", "a.pdf", 1, "w2"⟩ :=
  C5_default_query (fun _ => none) "a.pdf" [7] (some "  ") "w2"
    (fun _ _ => Except.ok "R") false "R" (by decide) (by decide)
    (Or.inr ⟨"  ", rfl, by decide⟩) rfl

/-- C10: for a valid non-empty upload whose query is not whitespace-only,
the handler strips surrounding whitespace before invoking the pipeline,
and the success body echoes the stripped query, the exact byte count
read, and the request's generated identifier. -/
theorem C10_stripped_query_and_metadata (fs0 : Fs) (filename : String) (content : Bytes)
    (q0 : String) (fileId : String)
    (kick : String → String → Except String String) (removeFails : Bool) (r : String)
    (hpdf : strEndsWith ".pdf" (pyLower filename) = true)
    (hc : ¬content.length = 0)
    (hq : pyStrip q0 ≠ "")
    (hk : kick (pyStrip q0) (filePathFor fileId) = Except.ok r) :
    (analyze_document fs0 filename content (some q0) fileId id kick removeFails).1
      = Response.success ⟨pyStrip q0, r, filename, content.length, fileId⟩ := by
  have hq0 : q0 ≠ "" := by
    intro h
    subst h
    exact hq (by decide)
  apply analyze_ok fs0 filename content (some q0) fileId kick removeFails (pyStrip q0) r
    hpdf hc ?_ ?_ hk
  · rw [Option.getD_some, if_neg (by rintro (h | h) <;> [exact hq0 h; exact hq h])]
  · rintro (h | h)
    · exact hq h
    · exact pyStrip_pyStrip_ne_empty q0 hq h

theorem C10_stripped_query_and_metadata_witness :
    (analyze_document (fun _ => none) "Q3.PDF" [1, 2, 3] (some " top risks? ") "w3" id
        (fun _ _ => Except.ok "R") false).1
      = Response.success ⟨pyStrip " top risks? ", "R", "Q3.PDF", 3, "w3"⟩ :=
  C10_stripped_query_and_metadata (fun _ => none) "Q3.PDF" [1, 2, 3] " top risks? " "w3"
    (fun _ _ => Except.ok "R") false "R" (by decide) (by decide) (by decide) rfl

/-- C2 (code bug): when the temp file vanishes between the save and the
pipeline call, `run_crew`'s blanket `except Exception` re-wraps the
`FileNotFoundError` as a plain `Exception`, so the handler's dedicated
`except FileNotFoundError` → 404 branch never fires and the client gets
a 500 internal error instead of the 404 the spec requires.  Evaluated
here at a concrete vanished-file request. -/
theorem C2_vanished_file_gets_500_not_404 :
    (analyze_document (fun _ => none) "report.pdf" [1] (some "x") "id0"
        (fun fs => fsDel fs (filePathFor "id0")) (fun _ _ => Except.ok "R") false).1
      = Response.error 500
          ("Error processing financial document: Analysis failed: " ++
           "Financial document not found at: data/financial_document_id0.pdf")
    ∧ ∀ m, (analyze_document (fun _ => none) "report.pdf" [1] (some "x") "id0"
        (fun fs => fsDel fs (filePathFor "id0")) (fun _ _ => Except.ok "R") false).1
      ≠ Response.error 404 m := by
  constructor
  · decide
  · intro m h
    have h500 : (analyze_document (fun _ => none) "report.pdf" [1] (some "x") "id0"
        (fun fs => fsDel fs (filePathFor "id0")) (fun _ _ => Except.ok "R") false).1
      = Response.error 500
          ("Error processing financial document: Analysis failed: " ++
           "Financial document not found at: data/financial_document_id0.pdf") := by decide
    rw [h500] at h
    cases h

/-- C4 (code bug): an empty upload with a valid name first creates the
zero-byte file, then raises `HTTPException(400, "Uploaded file is
empty")` — but that exception is caught by the handler's own
`except Exception` clause and re-raised as a 500, so the client sees an
internal error instead of the 400 the spec requires.  The cleanup part
of the claim does hold: afterwards nothing remains at the request's
path. -/
theorem C4_empty_upload_gets_500_but_cleanup_holds :
    (analyze_document (fun _ => none) "empty.pdf" [] (some "q") "id0" id
        (fun _ _ => Except.ok "R") false).1
      = Response.error 500 "Error processing financial document: 400: Uploaded file is empty"
    ∧ (analyze_document (fun _ => none) "empty.pdf" [] (some "q") "id0" id
        (fun _ _ => Except.ok "R") false).2 (filePathFor "id0") = none := by
  constructor
  · decide
  · decide
